import Mathlib

/-!
Verification development for the `baymax` backend.

Each definition is a shallow embedding of a function of the repository
Python source (file and symbol named in its doc comment).  Machine-level
boundaries (the jose JWT library, `hashlib.sha256`, the OpenAI client,
`datetime.utcnow`) are modelled by explicit parameters; repository logic
itself is translated line by line.  Times are natural numbers (seconds,
respectively minutes where noted); Python `float` literals that the code
only ever compares for equality are modelled as rationals.
-/

namespace Baymax

/-! ## String helpers

The Python `pattern in text_lower` substring test of the source and `str.lower()`,
modelled over `List Char`.  `Char.toLower` agrees with Python `lower`
on the ASCII alphabet, which covers every fixed pattern in the source. -/

/-- Model of Python `a.startswith(b)` on character lists (used to build the
substring test). -/
def starts_with : List Char → List Char → Bool
  | [], _ => true
  | _ :: _, [] => false
  | a :: ra, b :: rb => a == b && starts_with ra rb

/-- Model of Python `needle in haystack` (substring containment). -/
def contains_sub (needle : List Char) : List Char → Bool
  | [] => needle.isEmpty
  | b :: bs => starts_with needle (b :: bs) || contains_sub needle bs

/-- Model of Python `text.lower()` as a character list (ASCII). -/
def to_lower_list (s : String) : List Char := s.data.map Char.toLower

/-- Model of Python `language or "en"`: `None` and the empty string are
falsy, any other string is returned as-is. -/
def lang_or_en (language : Option String) : String :=
  match language with
  | none => "en"
  | some s => if s = "" then "en" else s

end Baymax

namespace Baymax.Intake

/-! ## AI intake service
Shallow embedding of `src/backend/app/services/ai_intake.py` together with
the schema types it uses from `src/backend/app/schemas/intake.py`.
The OpenAI client is modelled by an oracle `llm : String → Option String`
(`none` = the provider call raised); `datetime.utcnow()` by a `now : Nat`
argument threaded through each operation.  Fields of the schemas that the
service never reads or writes (`collected_data`, `languages_used`,
`patient_id`, uuid identities) are not carried. -/

/-- Schema `ConversationTurn` (schemas/intake.py).  The service never
constructs one; the type is carried so that the session field
`conversation_turns` is represented faithfully. -/
structure ConversationTurn where
  turn_id : Nat
  timestamp : Nat
  user_input : List (String × String)
  ai_response : List (String × String)
deriving DecidableEq, Repr

/-- Schema `RedFlag` (schemas/intake.py): severity is one of the
`RedFlagSeverity` enum strings. -/
structure RedFlag where
  condition : String
  severity : String
  detected_at : Nat
  context : String
  escalation_triggered : Bool
  notification_sent : Bool
deriving DecidableEq, Repr

/-- Schema `IntakeSession` (schemas/intake.py), restricted to the fields
the service reads or writes. -/
structure IntakeSession where
  conversation_type : String
  session_status : String
  started_at : Nat
  last_activity_at : Nat
  completed_at : Option Nat
  conversation_turns : List ConversationTurn
  red_flags : List RedFlag
deriving DecidableEq, Repr

/-- Schema `IntakeCompletion` (schemas/intake.py), restricted to the fields
`complete_session` fills. -/
structure IntakeCompletion where
  completed : Bool
  completion_score : ℚ
  total_turns : Nat
  duration_minutes : Nat
  chief_complaint : String
  hpi_collected : Bool
  pmh_collected : Bool
  medications_collected : Bool
  allergies_collected : Bool
  ros_collected : Bool
  red_flags_detected : List RedFlag
deriving DecidableEq, Repr

/-- The wire replies `process_text_input` can return (the literal dicts in
ai_intake.py, typed by their `type` key). -/
inductive Reply where
  | error (message : String)
  | ai_response (content : String) (language : String) (confidence : ℚ)
  | red_flag_alert (message : String) (severity : String) (escalation_triggered : Bool)
deriving DecidableEq, Repr

/-- The in-process session map of the service, `self.sessions` (a Python dict
keyed by session id). -/
def Sessions := String → Option IntakeSession

/-- Result of one `process_text_input` call: the reply, the session map
after the call, and whether the text-generation provider was invoked. -/
structure ProcessResult where
  reply : Reply
  sessions : Sessions
  provider_called : Bool

/-- The denylist `dangerous_patterns` of `AIIntakeService._check_safety`. -/
def dangerous_patterns : List String :=
  ["what\u0027s my diagnosis",
   "am i going to die",
   "what disease do i have",
   "prescribe medication",
   "do i have cancer",
   "what medication",
   "diagnosis"]

/-- `AIIntakeService._check_safety`: lowercase substring match against the
denylist; any hit returns "blocked", else "safe". -/
def check_safety (text : String) : String :=
  if dangerous_patterns.any (fun p => contains_sub p.data (to_lower_list text)) then
    "blocked"
  else
    "safe"

/-- The pattern map of `AIIntakeService._detect_red_flags`, in Python dict
insertion order: (pattern, severity, condition). -/
def red_flag_patterns : List (String × String × String) :=
  [("can\u0027t feel my legs", "critical", "Possible cauda equina syndrome"),
   ("severe chest pain", "critical", "Possible cardiac emergency"),
   ("difficulty breathing", "critical", "Respiratory distress"),
   ("severe bleeding", "critical", "Hemorrhage")]

/-- `AIIntakeService._detect_red_flags`: appends a `RedFlag` for every
pattern contained in the lowercased text, in pattern-map order. -/
def detect_red_flags (text : String) (now : Nat) : List RedFlag :=
  (red_flag_patterns.filter
      (fun p => contains_sub p.1.data (to_lower_list text))).map
    (fun p =>
      { condition := p.2.2
        severity := p.2.1
        detected_at := now
        context := text
        escalation_triggered := true
        notification_sent := false })

/-- `AIIntakeService._generate_response`: calls the provider; on failure the
fixed fallback sentence is returned. -/
def generate_response (llm : String → Option String) (text : String) : String :=
  match llm text with
  | some r => r
  | none => "I understand. Could you tell me more about your symptoms?"

/-- `AIIntakeService.create_session`: stores a fresh active text session
under `session_id` (overwriting any previous entry) and returns it. -/
def create_session (m : Sessions) (session_id : String) (now : Nat) :
    Sessions × IntakeSession :=
  let session : IntakeSession :=
    { conversation_type := "text"
      session_status := "active"
      started_at := now
      last_activity_at := now
      completed_at := none
      conversation_turns := []
      red_flags := [] }
  (fun k => if k = session_id then some session else m k, session)

/-- `AIIntakeService.process_text_input`: unknown session ⇒ error reply;
then safety check, then red-flag detection (matches appended to the
session), then the provider call. -/
def process_text_input (m : Sessions) (session_id : String) (text : String)
    (language : Option String) (now : Nat) (llm : String → Option String) :
    ProcessResult :=
  match m session_id with
  | none =>
      { reply := .error "Session not found", sessions := m, provider_called := false }
  | some session =>
      if check_safety text = "blocked" then
        { reply := .ai_response
            "I\u0027m here to help gather your medical information. Could you please describe your symptoms or concerns?"
            (lang_or_en language) 1
          sessions := m
          provider_called := false }
      else
        match detect_red_flags text now with
        | first :: rest =>
            let session2 :=
              { session with red_flags := session.red_flags ++ (first :: rest) }
            { reply := .red_flag_alert "Please seek immediate medical attention"
                first.severity true
              sessions := fun k => if k = session_id then some session2 else m k
              provider_called := false }
        | [] =>
            let response := generate_response llm text
            let session2 := { session with last_activity_at := now }
            { reply := .ai_response response (lang_or_en language) (95 / 100)
              sessions := fun k => if k = session_id then some session2 else m k
              provider_called := true }

/-- `AIIntakeService.complete_session`: unknown id raises (modelled as
`Except.error`); else stamps completion and builds the summary, with
`total_turns` the length of the recorded-turns list of the session. -/
def complete_session (m : Sessions) (session_id : String) (now : Nat) :
    Except String (Sessions × IntakeCompletion) :=
  match m session_id with
  | none => .error "Session not found"
  | some session =>
      let session2 :=
        { session with completed_at := some now, session_status := "completed" }
      let completion : IntakeCompletion :=
        { completed := true
          completion_score := 8 / 10
          total_turns := session2.conversation_turns.length
          duration_minutes := (now - session2.started_at) / 60
          chief_complaint := "Patient reported symptoms"
          hpi_collected := true
          pmh_collected := false
          medications_collected := false
          allergies_collected := false
          ros_collected := false
          red_flags_detected := session2.red_flags }
      .ok (fun k => if k = session_id then some session2 else m k, completion)

/-- Snapshot returned by `AIIntakeService.get_session_status`. -/
structure StatusReport where
  status : String
  started_at : Nat
  last_activity_at : Nat
  total_turns : Nat
  red_flags_count : Nat
deriving DecidableEq, Repr

/-- `AIIntakeService.get_session_status`: unknown id ⇒ `none`; else the
snapshot with `total_turns` the recorded-turns count. -/
def get_session_status (m : Sessions) (session_id : String) :
    Option StatusReport :=
  match m session_id with
  | none => none
  | some session =>
      some
        { status := session.session_status
          started_at := session.started_at
          last_activity_at := session.last_activity_at
          total_turns := session.conversation_turns.length
          red_flags_count := session.red_flags.length }

/-- States of the session map reachable through the public
operations, starting from the empty map of a fresh service. -/
inductive Reach : Sessions → Prop where
  | init : Reach (fun _ => none)
  | create (m : Sessions) (sid : String) (now : Nat) :
      Reach m → Reach (create_session m sid now).1
  | process (m : Sessions) (sid text : String) (language : Option String)
      (now : Nat) (llm : String → Option String) :
      Reach m → Reach (process_text_input m sid text language now llm).sessions
  | complete (m m2 : Sessions) (sid : String) (now : Nat)
      (c : IntakeCompletion) :
      Reach m → complete_session m sid now = .ok (m2, c) → Reach m2

end Baymax.Intake

namespace Baymax.Security

/-! ## Security primitives
Shallow embedding of `src/backend/app/core/security.py`.  The jose JWT
library and `hashlib.sha256` are external boundaries: a token is modelled
symbolically as a signed payload or an unparseable blob, and the SHA-256
digest function is a parameter `H`. -/

/-- JWT payload claims the repository writes and reads.  `sub` and `type`
model `payload.get(...)` (absent claim = `none`); `create_refresh_token`
writes no scopes claim, modelled as `[]`. -/
structure JWTPayload where
  exp : Nat
  sub : Option String
  scopes : List String
  type : Option String
deriving DecidableEq, Repr

/-- Modelled jose token boundary: a payload signed under a secret, or a
string that does not parse as a JWT. -/
inductive JWTToken where
  | signed (payload : JWTPayload) (secret : String)
  | malformed (raw : String)
deriving DecidableEq, Repr

/-- The `JWTError` cases jose can raise during decode. -/
inductive JWTError where
  | bad_signature
  | expired
  | malformed
deriving DecidableEq, Repr

/-- Modelled boundary `jwt.decode(token, secret, algorithms=[ALGORITHM])`:
fails on unparseable input, on a signature under a different secret, and
on an `exp` claim strictly in the past. -/
def jwt_decode (secret : String) (now : Nat) (t : JWTToken) :
    Except JWTError JWTPayload :=
  match t with
  | .malformed _ => .error .malformed
  | .signed payload sk =>
      if sk ≠ secret then .error .bad_signature
      else if payload.exp < now then .error .expired
      else .ok payload

/-- config.py default `ACCESS_TOKEN_EXPIRE_MINUTES`. -/
def ACCESS_TOKEN_EXPIRE_MINUTES : Nat := 15

/-- config.py default `REFRESH_TOKEN_EXPIRE_DAYS`. -/
def REFRESH_TOKEN_EXPIRE_DAYS : Nat := 7

/-- `create_access_token` (core/security.py): signs
`{exp, sub = str(subject), scopes, type = "access"}` under the configured
secret; `expires_delta` is in seconds and defaults to the configured
minutes. -/
def create_access_token (secret : String) (now : Nat) (subject : String)
    (expires_delta : Option Nat) (scopes : List String) : JWTToken :=
  let expire :=
    match expires_delta with
    | some d => now + d
    | none => now + ACCESS_TOKEN_EXPIRE_MINUTES * 60
  .signed { exp := expire, sub := some subject, scopes := scopes, type := some "access" }
    secret

/-- `create_refresh_token` (core/security.py): signs
`{exp, sub = str(subject), type = "refresh"}` (no scopes claim). -/
def create_refresh_token (secret : String) (now : Nat) (subject : String)
    (expires_delta : Option Nat) : JWTToken :=
  let expire :=
    match expires_delta with
    | some d => now + d
    | none => now + REFRESH_TOKEN_EXPIRE_DAYS * 86400
  .signed { exp := expire, sub := some subject, scopes := [], type := some "refresh" }
    secret

/-- `verify_token` (core/security.py): decodes inside a try/except — any
`JWTError` yields `none`; a `type` claim different from the expected kind
yields `none`; a missing `sub` claim yields `none`; else the subject.  The
function is total: it never propagates an exception. -/
def verify_token (secret : String) (now : Nat) (token : JWTToken)
    (token_type : String) : Option String :=
  match jwt_decode secret now token with
  | .error _ => none
  | .ok payload =>
      if payload.type ≠ some token_type then none
      else payload.sub

/-- `hash_otp` (core/security.py):
`sha256(f"{otp}{SECRET_KEY}{phone}".encode()).hexdigest()` with the
SHA-256 hex-digest boundary as the parameter `H`. -/
def hash_otp (H : String → String) (secret : String) (otp phone : String) : String :=
  H (otp ++ (secret ++ phone))

/-- Model of `hmac.compare_digest`: value-level string equality (the
constant-time execution is a timing property outside the embedding). -/
def compare_digest (a b : String) : Bool := a == b

/-- `verify_otp` (core/security.py): recomputes the hash and compares with
`hmac.compare_digest`. -/
def verify_otp (H : String → String) (secret : String)
    (otp phone hashed : String) : Bool :=
  compare_digest (hash_otp H secret otp phone) hashed

end Baymax.Security

namespace Baymax.Auth

/-! ## OTP-verify endpoint
Shallow embedding of `verify_otp` in `src/backend/app/api/auth.py`.  The
database is a list of patient rows; the SQLAlchemy
`select(...).scalar_one_or_none()` boundary keeps its zero/one/many
semantics. -/

/-- `Patient` persistence row, restricted to the columns the endpoint
touches. -/
structure PatientRow where
  id : Nat
  phone : String
  is_verified : Bool
deriving DecidableEq, Repr

/-- Response schema `Token` (schemas/auth.py). -/
structure Token where
  access_token : Security.JWTToken
  refresh_token : Security.JWTToken
  token_type : String
deriving DecidableEq, Repr

/-- `db.execute(select(Patient).where(Patient.phone == phone))` followed by
`scalar_one_or_none()`: no row gives `none`, one row gives it, several
raise `MultipleResultsFound`. -/
def scalar_one_or_none (db : List PatientRow) (phone : String) :
    Except String (Option PatientRow) :=
  match db.filter (fun p => p.phone == phone) with
  | [] => .ok none
  | [p] => .ok (some p)
  | _ => .error "MultipleResultsFound"

/-- `POST /auth/otp/verify` (api/auth.py `verify_otp`): unknown phone gives
HTTP 404; otherwise the matched patient is marked verified, committed, and
an access+refresh pair scoped "patient" is returned.  The submitted `otp`
is bound but never read.  Errors: `.inl status` is an `HTTPException`,
`.inr` a raised database error. -/
def verify_otp_endpoint (secret : String) (now : Nat) (db : List PatientRow)
    (phone : String) (otp : String) : Except (Nat ⊕ String) (Token × List PatientRow) :=
  match scalar_one_or_none db phone with
  | .error e => .error (.inr e)
  | .ok none => .error (.inl 404)
  | .ok (some patient) =>
      let db2 := db.map (fun p => if p.phone == phone then { p with is_verified := true } else p)
      .ok
        ({ access_token :=
             Security.create_access_token secret now (toString patient.id) none ["patient"]
           refresh_token :=
             Security.create_refresh_token secret now (toString patient.id) none
           token_type := "bearer" },
         db2)

end Baymax.Auth

namespace Baymax.Domain

/-! ## Patient bounded context
Shallow embedding of the consent logic of
`src/backend/app/domain/patient/aggregate.py` and
`src/backend/app/domain/patient/entities.py`.  The aggregate is restricted
to the state its consent operations read or write (`consents`, `_version`,
the pending domain-event queue); profile value objects (phone, name, date
of birth, ...) are carried by no consent operation and are omitted.  The
remaining public mutators (`verify`, `add_emergency_contact`,
`update_contact_info`, `link_abha`, `deactivate`, `reactivate`) never
touch `consents`; the reachability relation models them with a step that
changes version and events arbitrarily while preserving `consents`. -/

/-- `Consent` entity (domain/patient/entities.py). -/
structure Consent where
  id : Nat
  patient_id : Nat
  consent_type : String
  purpose : String
  granted_at : Nat
  expires_at : Option Nat
  revoked_at : Option Nat
deriving DecidableEq, Repr

/-- `Consent.is_active`: false once revoked, false once the expiry (when
set) lies strictly in the past, true otherwise.  A set `revoked_at`
timestamp is always truthy in the source. -/
def Consent.is_active (c : Consent) (now : Nat) : Bool :=
  match c.revoked_at with
  | some _ => false
  | none =>
      match c.expires_at with
      | some e => if e < now then false else true
      | none => true

/-- Domain events raised by the aggregate (entities.py), restricted to
their payload fields relevant here. -/
inductive PatientEvent where
  | patient_registered
  | patient_verified (method : String)
  | consent_granted (consent_type purpose : String)
  | consent_revoked (consent_type : String)
deriving DecidableEq, Repr

/-- `Patient` aggregate root (aggregate.py), restricted to consent state. -/
structure PatientAgg where
  id : Nat
  consents : List Consent
  version : Nat
  events : List PatientEvent
deriving DecidableEq, Repr

/-- `Patient.register` factory: empty consent list, version 0, one
`PatientRegistered` event queued. -/
def register (id : Nat) : PatientAgg :=
  { id := id, consents := [], version := 0, events := [.patient_registered] }

/-- `Patient.grant_consent`: raises if an active consent of the same type
exists; else appends the new `Consent`, increments the version and queues
a `ConsentGranted` event. -/
def grant_consent (p : PatientAgg) (consent_id : Nat) (consent_type purpose : String)
    (expires_at : Option Nat) (now : Nat) : Except String PatientAgg :=
  if p.consents.any (fun c => c.consent_type == consent_type && c.is_active now) then
    .error ("Active consent for " ++ consent_type ++ " already exists")
  else
    .ok { p with
          consents := p.consents ++
            [{ id := consent_id, patient_id := p.id, consent_type := consent_type,
               purpose := purpose, granted_at := now, expires_at := expires_at,
               revoked_at := none }]
          version := p.version + 1
          events := p.events ++ [.consent_granted consent_type purpose] }

/-- The loop of `Patient.revoke_consent`: revoke (stamp `revoked_at`) the
first consent of the given type that is active, leaving the rest
untouched; `none` when no active match exists. -/
def revoke_first (consent_type : String) (now : Nat) : List Consent → Option (List Consent)
  | [] => none
  | c :: rest =>
      if c.consent_type == consent_type && c.is_active now then
        some ({ c with revoked_at := some now } :: rest)
      else
        match revoke_first consent_type now rest with
        | some rest2 => some (c :: rest2)
        | none => none

/-- `Patient.revoke_consent`: raises when no active consent of the type
exists; else revokes the first active match, increments the version and
queues a `ConsentRevoked` event. -/
def revoke_consent (p : PatientAgg) (consent_type : String) (now : Nat) :
    Except String PatientAgg :=
  match revoke_first consent_type now p.consents with
  | some cs =>
      .ok { p with
            consents := cs
            version := p.version + 1
            events := p.events ++ [.consent_revoked consent_type] }
  | none => .error ("No active consent found for " ++ consent_type)

/-- Number of active consents of a given type in a list (the quantity the
uniqueness invariant bounds). -/
def count_active (consent_type : String) (now : Nat) : List Consent → Nat
  | [] => 0
  | c :: rest =>
      (if c.consent_type == consent_type && c.is_active now then 1 else 0) +
        count_active consent_type now rest

/-- Aggregates reachable through the public operations, tagged with the
wall-clock time of the last operation (operation times are non-decreasing,
as `datetime.utcnow()` is). `misc` covers every public mutator other than
the consent operations: all of them preserve `consents`. -/
inductive ReachP : Nat → PatientAgg → Prop where
  | init (id t : Nat) : ReachP t (register id)
  | grant (t t2 : Nat) (p p2 : PatientAgg) (cid : Nat) (ty purpose : String)
      (exp : Option Nat) :
      ReachP t p → t ≤ t2 → grant_consent p cid ty purpose exp t2 = .ok p2 →
      ReachP t2 p2
  | revoke (t t2 : Nat) (p p2 : PatientAgg) (ty : String) :
      ReachP t p → t ≤ t2 → revoke_consent p ty t2 = .ok p2 → ReachP t2 p2
  | misc (t t2 : Nat) (p : PatientAgg) (v : Nat) (ev : List PatientEvent) :
      ReachP t p → t ≤ t2 → ReachP t2 { p with version := v, events := ev }

/-- Concrete reachable aggregate used by the C6 witness: `register 1`
followed by a successful `grant_consent` of type "ai_intake" at time 0. -/
def example_patient : PatientAgg :=
  { id := 1
    consents := [{ id := 10, patient_id := 1, consent_type := "ai_intake",
                   purpose := "care", granted_at := 0, expires_at := none,
                   revoked_at := none }]
    version := 1
    events := [.patient_registered, .consent_granted "ai_intake" "care"] }

end Baymax.Domain

namespace Baymax.Appointments

/-! ## Available-slots endpoint
Shallow embedding of `get_available_slots` in
`src/backend/app/api/appointments.py`.  Times are minutes; `day_start` is
midnight of the requested day, `now` is `datetime.utcnow()`, and
`booked_times` is the set (here: list) of the non-cancelled
appointment starts on that day, which the endpoint reads from the
database before the loop. -/

/-- Response schema `AppointmentSlot` (schemas/appointment.py), fields as
filled by the endpoint. -/
structure AppointmentSlot where
  provider_id : Nat
  date : Nat
  start_time : Nat
  end_time : Nat
  duration_minutes : Nat
  available : Bool
  appointment_type : String
deriving DecidableEq, Repr

/-- config.py default `APPOINTMENT_SLOT_DURATION_MINUTES`. -/
def APPOINTMENT_SLOT_DURATION_MINUTES : Nat := 30

/-- config.py default `APPOINTMENT_BUFFER_MINUTES`. -/
def APPOINTMENT_BUFFER_MINUTES : Nat := 5

/-- The while-loop of `get_available_slots`: offer the current start when
it is neither booked nor in the past, then advance by
slot-duration + buffer.  The `0 < step` guard renders termination (the
source would loop forever on a zero step; the settings give 35). -/
def slots_loop (provider_id date : Nat) (appointment_type : String)
    (booked_times : List Nat) (now slot_dur step current end_time : Nat) :
    List AppointmentSlot :=
  if h : current < end_time ∧ 0 < step then
    (if current ∉ booked_times ∧ now < current then
       [{ provider_id := provider_id, date := date, start_time := current,
          end_time := current + slot_dur, duration_minutes := slot_dur,
          available := true, appointment_type := appointment_type }]
     else []) ++
      slots_loop provider_id date appointment_type booked_times now slot_dur step
        (current + step) end_time
  else []
termination_by end_time - current
decreasing_by omega

/-- `get_available_slots` (api/appointments.py): the candidate grid runs
from 09:00 to 17:00 of the requested day. -/
def get_available_slots (provider_id date : Nat) (appointment_type : String)
    (booked_times : List Nat) (now day_start slot_dur buffer : Nat) :
    List AppointmentSlot :=
  slots_loop provider_id date appointment_type booked_times now slot_dur
    (slot_dur + buffer) (day_start + 9 * 60) (day_start + 17 * 60)

/-- The candidate start grid by itself (specification-side restatement of
the visit order of the loop, used to characterize the returned slots). -/
def grid_starts (step current end_time : Nat) : List Nat :=
  if _h : current < end_time ∧ 0 < step then
    current :: grid_starts step (current + step) end_time
  else []
termination_by end_time - current
decreasing_by omega

end Baymax.Appointments

namespace Baymax.IntakeVO

/-! ## Intake completeness value object
Shallow embedding of `IntakeCompleteness` in
`src/backend/app/domain/intake/value_objects.py`. -/

/-- The eight section flags, defaulting to false. -/
structure IntakeCompleteness where
  chief_complaint_collected : Bool := false
  hpi_collected : Bool := false
  pmh_collected : Bool := false
  medications_collected : Bool := false
  allergies_collected : Bool := false
  social_history_collected : Bool := false
  family_history_collected : Bool := false
  ros_collected : Bool := false
deriving DecidableEq, Repr

/-- The `fields` list built inside `score`, in source order. -/
def fields_list (ic : IntakeCompleteness) : List Bool :=
  [ic.chief_complaint_collected, ic.hpi_collected, ic.pmh_collected,
   ic.medications_collected, ic.allergies_collected,
   ic.social_history_collected, ic.family_history_collected,
   ic.ros_collected]

/-- `IntakeCompleteness.score`: `sum(fields) / len(fields)` — the count of
true flags over the list length. -/
def score (ic : IntakeCompleteness) : ℚ :=
  ((fields_list ic).count true : ℚ) / ((fields_list ic).length : ℚ)

/-- `IntakeCompleteness.is_complete`: `all` of chief complaint, HPI,
medications, allergies. -/
def is_complete (ic : IntakeCompleteness) : Bool :=
  ic.chief_complaint_collected && ic.hpi_collected &&
    ic.medications_collected && ic.allergies_collected

/-- `IntakeCompleteness.missing_sections`: appends the label of every
false flag, in source order. -/
def missing_sections (ic : IntakeCompleteness) : List String :=
  (if ic.chief_complaint_collected then [] else ["Chief Complaint"]) ++
  (if ic.hpi_collected then [] else ["History of Present Illness"]) ++
  (if ic.pmh_collected then [] else ["Past Medical History"]) ++
  (if ic.medications_collected then [] else ["Medications"]) ++
  (if ic.allergies_collected then [] else ["Allergies"]) ++
  (if ic.social_history_collected then [] else ["Social History"]) ++
  (if ic.family_history_collected then [] else ["Family History"]) ++
  (if ic.ros_collected then [] else ["Review of Systems"])

/-- The flags paired with their labels in the fixed enumeration order
(specification-side formulation). -/
def labelled_flags (ic : IntakeCompleteness) : List (Bool × String) :=
  [(ic.chief_complaint_collected, "Chief Complaint"),
   (ic.hpi_collected, "History of Present Illness"),
   (ic.pmh_collected, "Past Medical History"),
   (ic.medications_collected, "Medications"),
   (ic.allergies_collected, "Allergies"),
   (ic.social_history_collected, "Social History"),
   (ic.family_history_collected, "Family History"),
   (ic.ros_collected, "Review of Systems")]

end Baymax.IntakeVO

namespace Baymax.Intake

/-! ## Lemmas about the intake service -/

/-- The session map produced by one `process_text_input` call is either
unchanged or a pointwise update that preserves the recorded-turns list. -/
theorem process_sessions_preserve_turns (m : Sessions) (sid text : String)
    (language : Option String) (now : Nat) (llm : String → Option String)
    (k : String) (s : IntakeSession)
    (h : (process_text_input m sid text language now llm).sessions k = some s) :
    ∃ s0, m k = some s0 ∧ s.conversation_turns = s0.conversation_turns := by
  unfold process_text_input at h
  split at h
  · exact ⟨s, h, rfl⟩
  · rename_i session heq
    split at h
    · exact ⟨s, h, rfl⟩
    · split at h
      · dsimp only at h
        by_cases hk : k = sid
        · subst hk
          rw [if_pos rfl] at h
          refine ⟨session, heq, ?_⟩
          cases h
          rfl
        · rw [if_neg hk] at h
          exact ⟨s, h, rfl⟩
      · dsimp only at h
        by_cases hk : k = sid
        · subst hk
          rw [if_pos rfl] at h
          refine ⟨session, heq, ?_⟩
          cases h
          rfl
        · rw [if_neg hk] at h
          exact ⟨s, h, rfl⟩

/-- A successful `complete_session` changes only the status and completion
stamp of the targeted session; recorded turns are preserved. -/
theorem complete_sessions_preserve_turns (m m2 : Sessions) (sid : String)
    (now : Nat) (c : IntakeCompletion)
    (hok : complete_session m sid now = .ok (m2, c))
    (k : String) (s : IntakeSession) (h : m2 k = some s) :
    ∃ s0, m k = some s0 ∧ s.conversation_turns = s0.conversation_turns := by
  unfold complete_session at hok
  split at hok
  · cases hok
  · rename_i session heq
    cases hok
    dsimp only at h
    by_cases hk : k = sid
    · subst hk
      rw [if_pos rfl] at h
      refine ⟨session, heq, ?_⟩
      cases h
      rfl
    · rw [if_neg hk] at h
      exact ⟨s, h, rfl⟩

/-- Every session stored in a reachable session map has an empty
recorded-turns list. -/
theorem reach_turns_empty (m : Sessions) (hr : Reach m) :
    ∀ sid s, m sid = some s → s.conversation_turns = [] := by
  induction hr with
  | init => intro sid s h; cases h
  | create m0 sid0 now0 _ ih =>
      intro sid s h
      unfold create_session at h
      dsimp only at h
      by_cases hk : sid = sid0
      · rw [if_pos hk] at h
        cases h
        rfl
      · rw [if_neg hk] at h
        exact ih sid s h
  | process m0 sid0 text language now llm _ ih =>
      intro sid s h
      obtain ⟨s0, h0, ht⟩ :=
        process_sessions_preserve_turns m0 sid0 text language now llm sid s h
      rw [ht]
      exact ih sid s0 h0
  | complete m0 m2 sid0 now0 c _ hok ih =>
      intro sid s h
      obtain ⟨s0, h0, ht⟩ :=
        complete_sessions_preserve_turns m0 m2 sid0 now0 c hok sid s h
      rw [ht]
      exact ih sid s0 h0

end Baymax.Intake

namespace Baymax.Intake

/-- Claim C1: on a known session, any denylist hit in the lowercased input
makes `process_text_input` return exactly the fixed redirect `ai_response`
(content as in the source, confidence 1.0, language = requested or "en"),
with the session map unchanged (no red flag appended) and the
text-generation provider never called; blocked classification thus
precedes red-flag detection and any model call. -/
theorem C1_blocked_redirect (m : Sessions) (sid text : String)
    (language : Option String) (now : Nat) (llm : String → Option String)
    (session : IntakeSession) (hs : m sid = some session)
    (hb : ∃ p ∈ dangerous_patterns, contains_sub p.data (to_lower_list text) = true) :
    process_text_input m sid text language now llm =
      { reply := Reply.ai_response
          "I\u0027m here to help gather your medical information. Could you please describe your symptoms or concerns?"
          (lang_or_en language) 1
        sessions := m
        provider_called := false } := by
  have hcs : check_safety text = "blocked" := by
    unfold check_safety
    rw [if_pos]
    rw [List.any_eq_true]
    obtain ⟨p, hp, hc⟩ := hb
    exact ⟨p, hp, hc⟩
  unfold process_text_input
  rw [hs]
  simp [hcs]

/-- Witness for C1 at a concrete blocked input. -/
theorem C1_blocked_redirect_witness :
    process_text_input
      (fun k => if k = "sess" then some (create_session (fun _ => none) "sess" 0).2 else none)
      "sess" "What is my Diagnosis?" none 5 (fun _ => some "model output") =
      { reply := Reply.ai_response
          "I\u0027m here to help gather your medical information. Could you please describe your symptoms or concerns?"
          "en" 1
        sessions :=
          fun k => if k = "sess" then some (create_session (fun _ => none) "sess" 0).2 else none
        provider_called := false } :=
  C1_blocked_redirect _ _ _ _ _ _ _ rfl (by decide)

end Baymax.Intake

namespace Baymax.Intake

/-- Claim C2: on a known session and a non-blocked turn, the red-flag
detector matches the fixed pattern map against the lowercased input
(membership characterization below); any match makes the turn append all
matches to the red-flag list of the session and return the `red_flag_alert`
reply with the severity of the first match and `escalation_triggered = true`,
without calling the text-generation provider; "severe chest pain" yields
exactly one critical entry and "my shoulder is sore after exercise"
yields none. -/
theorem C2_red_flag_turn (m : Sessions) (sid text : String)
    (language : Option String) (now : Nat) (llm : String → Option String)
    (session : IntakeSession) (hs : m sid = some session)
    (hsafe : check_safety text = "safe") :
    (∀ rf, rf ∈ detect_red_flags text now ↔
      ∃ p ∈ red_flag_patterns,
        contains_sub p.1.data (to_lower_list text) = true ∧
        rf = { condition := p.2.2, severity := p.2.1, detected_at := now,
               context := text, escalation_triggered := true,
               notification_sent := false }) ∧
    (∀ first rest, detect_red_flags text now = first :: rest →
      process_text_input m sid text language now llm =
        { reply := Reply.red_flag_alert "Please seek immediate medical attention"
            first.severity true
          sessions := fun k =>
            if k = sid then
              some { session with red_flags := session.red_flags ++ (first :: rest) }
            else m k
          provider_called := false }) ∧
    detect_red_flags "severe chest pain" now =
      [{ condition := "Possible cardiac emergency", severity := "critical",
         detected_at := now, context := "severe chest pain",
         escalation_triggered := true, notification_sent := false }] ∧
    detect_red_flags "my shoulder is sore after exercise" now = [] := by
  refine ⟨?_, ?_, rfl, rfl⟩
  · intro rf
    simp only [detect_red_flags, List.mem_map, List.mem_filter]
    constructor
    · rintro ⟨p, ⟨hp, hc⟩, hrf⟩
      exact ⟨p, hp, hc, hrf.symm⟩
    · rintro ⟨p, hp, hc, hrf⟩
      exact ⟨p, ⟨hp, hc⟩, hrf.symm⟩
  · intro first rest hflags
    unfold process_text_input
    rw [hs]
    simp [hsafe, hflags]

/-- Witness for C2 at a concrete red-flag input. -/
theorem C2_red_flag_turn_witness :
    (process_text_input
      (fun k => if k = "sess" then some (create_session (fun _ => none) "sess" 0).2 else none)
      "sess" "I have severe chest pain" none 7 (fun _ => some "model output")).reply =
      Reply.red_flag_alert "Please seek immediate medical attention" "critical" true ∧
    (process_text_input
      (fun k => if k = "sess" then some (create_session (fun _ => none) "sess" 0).2 else none)
      "sess" "I have severe chest pain" none 7 (fun _ => some "model output")).provider_called
      = false := by
  have h := (C2_red_flag_turn
      (fun k => if k = "sess" then some (create_session (fun _ => none) "sess" 0).2 else none)
      "sess" "I have severe chest pain" none 7 (fun _ => some "model output")
      (create_session (fun _ => none) "sess" 0).2 rfl (by decide)).2.1
    { condition := "Possible cardiac emergency", severity := "critical", detected_at := 7,
      context := "I have severe chest pain", escalation_triggered := true,
      notification_sent := false }
    [] rfl
  rw [h]
  exact ⟨rfl, rfl⟩

/-- Claim C9: in every service state reachable through `create_session`,
`process_text_input` and `complete_session`, every stored session has
`conversation_turns` list is empty, so `complete_session` and
`get_session_status` always report `total_turns = 0`. -/
theorem C9_total_turns_always_zero (m : Sessions) (hr : Reach m) :
    (∀ sid s, m sid = some s → s.conversation_turns = []) ∧
    (∀ sid now m2 c, complete_session m sid now = .ok (m2, c) → c.total_turns = 0) ∧
    (∀ sid st, get_session_status m sid = some st → st.total_turns = 0) := by
  refine ⟨reach_turns_empty m hr, ?_, ?_⟩
  · intro sid now m2 c hok
    unfold complete_session at hok
    split at hok
    · cases hok
    · rename_i session heq
      have he := reach_turns_empty m hr sid session heq
      cases hok
      simp [he]
  · intro sid st hst
    unfold get_session_status at hst
    split at hst
    · cases hst
    · rename_i session heq
      have he := reach_turns_empty m hr sid session heq
      cases hst
      simp [he]

/-- Witness for C9 on a freshly created session. -/
theorem C9_total_turns_always_zero_witness :
    (create_session (fun _ => none) "sess2" 0).2.conversation_turns =
      ([] : List ConversationTurn) :=
  (C9_total_turns_always_zero _ (Reach.create _ "sess2" 0 Reach.init)).1 "sess2" _ rfl

end Baymax.Intake

namespace Baymax.Security

/-- Claim C4: `verify_token` is total (it returns `none` rather than
raising) — `none` on a signature under a different secret, on an expired
token, on unparseable input, and on a `type` claim different from the
expected kind; a fresh unexpired access (resp. refresh) token for subject
X verifies as its own kind to exactly X; an access token verified as a
refresh token is `none` at every time. -/
theorem C4_verify_token (secret : String) (now : Nat) (ty : String) :
    (∀ payload sk, sk ≠ secret →
        verify_token secret now (.signed payload sk) ty = none) ∧
    (∀ payload : JWTPayload, payload.exp < now →
        verify_token secret now (.signed payload secret) ty = none) ∧
    (∀ raw, verify_token secret now (.malformed raw) ty = none) ∧
    (∀ payload : JWTPayload, payload.type ≠ some ty →
        verify_token secret now (.signed payload secret) ty = none) ∧
    (∀ subject scopes now2, now2 ≤ now + ACCESS_TOKEN_EXPIRE_MINUTES * 60 →
        verify_token secret now2 (create_access_token secret now subject none scopes)
          "access" = some subject) ∧
    (∀ subject now2, now2 ≤ now + REFRESH_TOKEN_EXPIRE_DAYS * 86400 →
        verify_token secret now2 (create_refresh_token secret now subject none)
          "refresh" = some subject) ∧
    (∀ subject scopes now2 delta,
        verify_token secret now2 (create_access_token secret now subject delta scopes)
          "refresh" = none) := by
  refine ⟨?_, ?_, fun raw => rfl, ?_, ?_, ?_, ?_⟩
  · intro payload sk hsk
    simp [verify_token, jwt_decode, hsk]
  · intro payload hexp
    simp [verify_token, jwt_decode, hexp]
  · intro payload hty
    by_cases hexp : payload.exp < now
    · simp [verify_token, jwt_decode, hexp]
    · simp [verify_token, jwt_decode, hexp, hty]
  · intro subject scopes now2 h2
    have hexp : ¬ now + ACCESS_TOKEN_EXPIRE_MINUTES * 60 < now2 := by
      omega
    simp [verify_token, jwt_decode, create_access_token, hexp]
  · intro subject now2 h2
    have hexp : ¬ now + REFRESH_TOKEN_EXPIRE_DAYS * 86400 < now2 := by
      omega
    simp [verify_token, jwt_decode, create_refresh_token, hexp]
  · intro subject scopes now2 delta
    cases delta with
    | none =>
        by_cases hexp : now + ACCESS_TOKEN_EXPIRE_MINUTES * 60 < now2 <;>
          simp [verify_token, jwt_decode, create_access_token, hexp]
    | some d =>
        by_cases hexp : now + d < now2 <;>
          simp [verify_token, jwt_decode, create_access_token, hexp]

/-- Witness for C4 at concrete tokens. -/
theorem C4_verify_token_witness :
    verify_token "k" 10
      (.signed { exp := 5, sub := some "u", scopes := [], type := some "access" } "k")
      "access" = none ∧
    verify_token "k" 0 (create_access_token "k" 0 "42" none ["patient"]) "access"
      = some "42" ∧
    verify_token "k" 0 (create_access_token "k" 0 "42" none ["patient"]) "refresh"
      = none := by
  refine ⟨(C4_verify_token "k" 10 "access").2.1
      { exp := 5, sub := some "u", scopes := [], type := some "access" } (by decide),
    (C4_verify_token "k" 0 "access").2.2.2.2.1 "42" ["patient"] 0 (by decide),
    (C4_verify_token "k" 0 "access").2.2.2.2.2.2 "42" ["patient"] 0 none⟩

/-- Claim C10: a token with a valid signature, unexpired, with the expected
`type` claim but no `sub` claim still verifies to `none` — `verify_token`
checks `payload.get("sub")` for absence after the type check. -/
theorem C10_verify_token_missing_sub (secret : String) (now exp : Nat)
    (scopes : List String) (ty : String) (h : ¬ exp < now) :
    verify_token secret now
      (.signed { exp := exp, sub := none, scopes := scopes, type := some ty } secret)
      ty = none := by
  simp [verify_token, jwt_decode, h]

/-- Witness for C10 at a concrete unexpired token. -/
theorem C10_verify_token_missing_sub_witness :
    verify_token "k" 0
      (.signed { exp := 100, sub := none, scopes := ["patient"], type := some "access" } "k")
      "access" = none :=
  C10_verify_token_missing_sub "k" 0 100 ["patient"] "access" (by decide)

/-- Claim C5: `hash_otp` is the digest of the concatenation
otp, then secret, then phone; verifying the very otp that was hashed
succeeds; verifying any otp whose composite input digests differently
(SHA-256 collision-freeness at these inputs, a property of the hash
boundary `H`) fails.  Determinism is inherent: the embedding is a
function of (H, secret, otp, phone). -/
theorem C5_hash_otp (H : String → String) (secret otp phone : String) :
    hash_otp H secret otp phone = H (otp ++ secret ++ phone) ∧
    verify_otp H secret otp phone (hash_otp H secret otp phone) = true ∧
    (∀ otp2, H (otp2 ++ secret ++ phone) ≠ H (otp ++ secret ++ phone) →
      verify_otp H secret otp2 phone (hash_otp H secret otp phone) = false) := by
  refine ⟨?_, ?_, ?_⟩
  · unfold hash_otp
    rw [String.append_assoc]
  · unfold verify_otp compare_digest
    simp
  · intro otp2 hne
    unfold verify_otp compare_digest hash_otp
    simp only [beq_eq_false_iff_ne, ne_eq]
    rw [String.append_assoc, String.append_assoc] at hne
    exact hne

/-- Witness for C5 with a concrete digest boundary and inputs. -/
theorem C5_hash_otp_witness :
    verify_otp (fun s => s) "sek" "123456" "9876543210"
      (hash_otp (fun s => s) "sek" "123456" "9876543210") = true ∧
    verify_otp (fun s => s) "sek" "654321" "9876543210"
      (hash_otp (fun s => s) "sek" "123456" "9876543210") = false := by
  have h := C5_hash_otp (fun s => s) "sek" "123456" "9876543210"
  exact ⟨h.2.1, h.2.2 "654321" (by decide)⟩

end Baymax.Security

namespace Baymax.Auth

/-- Claim C3: the OTP-verify endpoint returns the same result for every
submitted code (the code is never compared to anything); an unknown phone
yields 404; a known phone is marked verified and receives an
access+refresh pair scoped "patient". -/
theorem C3_otp_verify_unchecked (secret : String) (now : Nat)
    (db : List PatientRow) (phone otp otp2 : String) :
    verify_otp_endpoint secret now db phone otp =
      verify_otp_endpoint secret now db phone otp2 ∧
    (db.filter (fun p => p.phone == phone) = [] →
      verify_otp_endpoint secret now db phone otp = .error (.inl 404)) ∧
    (∀ q, db.filter (fun p => p.phone == phone) = [q] →
      verify_otp_endpoint secret now db phone otp =
        .ok
          ({ access_token :=
               Security.create_access_token secret now (toString q.id) none ["patient"]
             refresh_token :=
               Security.create_refresh_token secret now (toString q.id) none
             token_type := "bearer" },
           db.map (fun p => if p.phone == phone then { p with is_verified := true } else p))) := by
  refine ⟨rfl, ?_, ?_⟩
  · intro h
    simp [verify_otp_endpoint, scalar_one_or_none, h]
  · intro q h
    simp [verify_otp_endpoint, scalar_one_or_none, h]

/-- Witness for C3: two different codes give identical outcomes on a
concrete one-patient database, and the patient ends up verified. -/
theorem C3_otp_verify_unchecked_witness :
    verify_otp_endpoint "k" 0 [{ id := 7, phone := "9876543210", is_verified := false }]
        "9876543210" "111111" =
      verify_otp_endpoint "k" 0 [{ id := 7, phone := "9876543210", is_verified := false }]
        "9876543210" "222222" ∧
    verify_otp_endpoint "k" 0 [{ id := 7, phone := "9876543210", is_verified := false }]
        "9876543210" "111111" =
      .ok
        ({ access_token := .signed
             { exp := 900, sub := some "7", scopes := ["patient"], type := some "access" } "k"
           refresh_token := .signed
             { exp := 604800, sub := some "7", scopes := [], type := some "refresh" } "k"
           token_type := "bearer" },
         [{ id := 7, phone := "9876543210", is_verified := true }]) := by
  have h := C3_otp_verify_unchecked "k" 0
    [{ id := 7, phone := "9876543210", is_verified := false }] "9876543210" "111111" "222222"
  refine ⟨h.1, ?_⟩
  rw [h.2.2 { id := 7, phone := "9876543210", is_verified := false } (by decide)]
  rfl

end Baymax.Auth

namespace Baymax.Domain

/-! ## Lemmas about consents -/

/-- Once inactive, a consent stays inactive at every later time
(revocation is permanent; expiry only recedes further into the past). -/
theorem is_active_false_mono (c : Consent) (t t2 : Nat) (h : t ≤ t2)
    (ha : c.is_active t = false) : c.is_active t2 = false := by
  cases hrev : c.revoked_at with
  | some r => simp [Consent.is_active, hrev]
  | none =>
      cases hexp : c.expires_at with
      | none => simp [Consent.is_active, hrev, hexp] at ha
      | some e =>
          simp only [Consent.is_active, hrev, hexp] at ha ⊢
          by_cases he : e < t
          · have h2 : e < t2 := by omega
            simp [h2]
          · simp [he] at ha

/-- `count_active` distributes over list append. -/
theorem count_active_append (ty : String) (now : Nat) (a b : List Consent) :
    count_active ty now (a ++ b) = count_active ty now a + count_active ty now b := by
  induction a with
  | nil => simp [count_active]
  | cons c rest ih => simp [count_active, ih, Nat.add_assoc]

/-- Zero active consents of a type is exactly the failure of the `any`
guard used by `grant_consent`. -/
theorem count_active_zero_iff_any (ty : String) (now : Nat) (cs : List Consent) :
    count_active ty now cs = 0 ↔
      cs.any (fun c => c.consent_type == ty && c.is_active now) = false := by
  induction cs with
  | nil => simp [count_active]
  | cons c rest ih =>
      by_cases hc : (c.consent_type == ty && c.is_active now) = true
      · simp [count_active, List.any_cons, hc]
      · rw [Bool.not_eq_true] at hc
        simp [count_active, List.any_cons, hc, ih]

/-- The number of active consents of a type never grows as time passes. -/
theorem count_active_anti (ty : String) (t t2 : Nat) (h : t ≤ t2)
    (cs : List Consent) : count_active ty t2 cs ≤ count_active ty t cs := by
  induction cs with
  | nil => exact Nat.le_refl 0
  | cons c rest ih =>
      simp only [count_active]
      refine Nat.add_le_add ?_ ih
      by_cases h2 : (c.consent_type == ty && c.is_active t2) = true
      · have h3 : (c.consent_type == ty && c.is_active t) = true := by
          rw [Bool.and_eq_true] at h2 ⊢
          refine ⟨h2.1, ?_⟩
          cases hat : c.is_active t with
          | true => rfl
          | false =>
              rw [is_active_false_mono c t t2 h hat] at h2
              exact h2.2
        rw [if_pos h2, if_pos h3]
      · rw [Bool.not_eq_true] at h2
        rw [if_neg (by simp [h2])]
        exact Nat.zero_le _

/-- `revoke_first` can only lower the active count, for every type and
every time. -/
theorem revoke_first_count_le (ty0 : String) (t : Nat) :
    ∀ cs cs2, revoke_first ty0 t cs = some cs2 →
      ∀ ty now, count_active ty now cs2 ≤ count_active ty now cs := by
  intro cs
  induction cs with
  | nil => intro cs2 h; cases h
  | cons c rest ih =>
      intro cs2 h ty now
      simp only [revoke_first] at h
      split at h
      · cases h
        simp only [count_active]
        refine Nat.add_le_add ?_ (Nat.le_refl _)
        have hv : Consent.is_active { c with revoked_at := some t } now = false := by
          simp [Consent.is_active]
        simp [hv]
      · split at h
        · rename_i rest2 heq
          cases h
          simp only [count_active]
          exact Nat.add_le_add (Nat.le_refl _) (ih rest2 heq ty now)
        · cases h

/-- A successful `revoke_first` removes exactly one active consent of the
revoked type, measured at the revocation time. -/
theorem revoke_first_count_succ (ty : String) (t : Nat) :
    ∀ cs cs2, revoke_first ty t cs = some cs2 →
      count_active ty t cs2 + 1 = count_active ty t cs := by
  intro cs
  induction cs with
  | nil => intro cs2 h; cases h
  | cons c rest ih =>
      intro cs2 h
      simp only [revoke_first] at h
      split at h
      · rename_i hc
        cases h
        simp only [count_active]
        have hv : Consent.is_active { c with revoked_at := some t } t = false := by
          simp [Consent.is_active]
        simp [hv, hc]
        omega
      · rename_i hc
        split at h
        · rename_i rest2 heq
          cases h
          simp only [count_active]
          have := ih rest2 heq
          omega
        · cases h

/-- `revoke_first` fails exactly when no consent of the type is active. -/
theorem revoke_first_none_iff (ty : String) (now : Nat) (cs : List Consent) :
    revoke_first ty now cs = none ↔
      cs.any (fun c => c.consent_type == ty && c.is_active now) = false := by
  induction cs with
  | nil => simp [revoke_first]
  | cons c rest ih =>
      simp only [revoke_first, List.any_cons]
      by_cases hc : (c.consent_type == ty && c.is_active now) = true
      · simp [hc]
      · rw [Bool.not_eq_true] at hc
        cases hrec : revoke_first ty now rest with
        | some rest2 =>
            have hrest : (rest.any fun c => c.consent_type == ty && c.is_active now)
                = true := by
              cases hany : rest.any fun c => c.consent_type == ty && c.is_active now with
              | true => rfl
              | false =>
                  rw [ih.mpr hany] at hrec
                  cases hrec
            simp [hc, hrec, hrest]
        | none =>
            have hrest := ih.mp hrec
            simp [hc, hrec, hrest]

/-- Uniqueness invariant: in every reachable aggregate, measured at or
after the last operation, at most one consent per type is active. -/
theorem reachP_count_le_one (t : Nat) (p : PatientAgg) (hr : ReachP t p) :
    ∀ now ty, t ≤ now → count_active ty now p.consents ≤ 1 := by
  induction hr with
  | init id t0 =>
      intro now ty h
      simp [register, count_active]
  | grant t0 t2 p0 p2 cid ty0 purpose exp hr0 hle hok ih =>
      intro now ty hnow
      unfold grant_consent at hok
      split at hok
      · cases hok
      · rename_i hguard
        cases hok
        dsimp only
        rw [count_active_append]
        by_cases hbeq : ty0 = ty
        · subst hbeq
          rw [Bool.not_eq_true] at hguard
          have hzero : count_active ty0 t2 p0.consents = 0 :=
            (count_active_zero_iff_any ty0 t2 p0.consents).mpr hguard
          have hzero2 : count_active ty0 now p0.consents = 0 :=
            Nat.le_zero.mp (hzero ▸ count_active_anti ty0 t2 now hnow p0.consents)
          rw [hzero2]
          simp only [count_active]
          split <;> simp
        · have hnew : count_active ty now
              [{ id := cid, patient_id := p0.id, consent_type := ty0, purpose := purpose,
                 granted_at := t2, expires_at := exp, revoked_at := none }] = 0 := by
            simp only [count_active]
            have : (ty0 == ty) = false := by
              simp [hbeq]
            simp [this]
          rw [hnew]
          exact ih now ty (Nat.le_trans hle hnow)
  | revoke t0 t2 p0 p2 ty0 hr0 hle hok ih =>
      intro now ty hnow
      unfold revoke_consent at hok
      split at hok
      · rename_i cs heq
        cases hok
        dsimp only
        exact Nat.le_trans (revoke_first_count_le ty0 t2 p0.consents cs heq ty now)
          (ih now ty (Nat.le_trans hle hnow))
      · cases hok
  | misc t0 t2 p0 v ev hr0 hle ih =>
      intro now ty hnow
      exact ih now ty (Nat.le_trans hle hnow)

end Baymax.Domain

namespace Baymax.Domain

/-- Claim C6: on every reachable patient aggregate (operation times
non-decreasing, invariant measured at or after the last operation) at most
one active consent per type exists; `grant_consent` raises exactly when an
active consent of the type exists and otherwise appends the new `Consent`,
queues a `ConsentGranted` event and increments the version;
`revoke_consent` raises exactly when no active consent of the type exists
and otherwise revokes the first active match (queueing `ConsentRevoked`,
incrementing the version); and after a successful revocation a new grant
of the same type succeeds. -/
theorem C6_consent_uniqueness (t : Nat) (p : PatientAgg) (hr : ReachP t p) :
    (∀ now ty, t ≤ now → count_active ty now p.consents ≤ 1) ∧
    (∀ cid ty purpose exp now,
        p.consents.any (fun c => c.consent_type == ty && c.is_active now) = true →
        ∃ e, grant_consent p cid ty purpose exp now = .error e) ∧
    (∀ cid ty purpose exp now,
        p.consents.any (fun c => c.consent_type == ty && c.is_active now) = false →
        grant_consent p cid ty purpose exp now = .ok
          { p with
            consents := p.consents ++
              [{ id := cid, patient_id := p.id, consent_type := ty, purpose := purpose,
                 granted_at := now, expires_at := exp, revoked_at := none }]
            version := p.version + 1
            events := p.events ++ [.consent_granted ty purpose] }) ∧
    (∀ ty now,
        p.consents.any (fun c => c.consent_type == ty && c.is_active now) = false →
        ∃ e, revoke_consent p ty now = .error e) ∧
    (∀ ty now,
        p.consents.any (fun c => c.consent_type == ty && c.is_active now) = true →
        ∃ cs2, revoke_first ty now p.consents = some cs2 ∧
          revoke_consent p ty now = .ok
            { p with
              consents := cs2
              version := p.version + 1
              events := p.events ++ [.consent_revoked ty] }) ∧
    (∀ ty t2 t3 p2 cid purpose exp, t ≤ t2 → t2 ≤ t3 →
        revoke_consent p ty t2 = .ok p2 →
        ∃ p3, grant_consent p2 cid ty purpose exp t3 = .ok p3) := by
  refine ⟨reachP_count_le_one t p hr, ?_, ?_, ?_, ?_, ?_⟩
  · intro cid ty purpose exp now h
    unfold grant_consent
    rw [if_pos h]
    exact ⟨_, rfl⟩
  · intro cid ty purpose exp now h
    unfold grant_consent
    rw [if_neg (by simp [h])]
  · intro ty now h
    unfold revoke_consent
    rw [(revoke_first_none_iff ty now p.consents).mpr h]
    exact ⟨_, rfl⟩
  · intro ty now h
    cases hrec : revoke_first ty now p.consents with
    | none =>
        rw [(revoke_first_none_iff ty now p.consents).mp hrec] at h
        cases h
    | some cs2 =>
        refine ⟨cs2, rfl, ?_⟩
        unfold revoke_consent
        rw [hrec]
  · intro ty t2 t3 p2 cid purpose exp h12 h23 hok
    unfold revoke_consent at hok
    split at hok
    · rename_i cs2 heq
      cases hok
      have hbound : count_active ty t2 p.consents ≤ 1 :=
        reachP_count_le_one t p hr t2 ty h12
    
      have hsucc := revoke_first_count_succ ty t2 p.consents cs2 heq
      have hzero : count_active ty t2 cs2 = 0 := by omega
      have hzero3 : count_active ty t3 cs2 = 0 :=
        Nat.le_zero.mp (hzero ▸ count_active_anti ty t2 t3 h23 cs2)
      have hany : cs2.any (fun c => c.consent_type == ty && c.is_active t3) = false :=
        (count_active_zero_iff_any ty t3 cs2).mp hzero3
      unfold grant_consent
      dsimp only
      rw [if_neg (by simp [hany])]
      exact ⟨_, rfl⟩
    · cases hok

/-- Witness for C6: a registered patient with one granted "ai_intake"
consent satisfies the uniqueness bound, and a second grant of the same
type fails. -/
theorem C6_consent_uniqueness_witness :
    count_active "ai_intake" 5 example_patient.consents ≤ 1 ∧
    (∃ e, grant_consent example_patient 11 "ai_intake" "care2" none 5 = .error e) := by
  have hreach : ReachP 0 example_patient :=
    ReachP.grant 0 0 (register 1) example_patient 10 "ai_intake" "care" none
      (ReachP.init 1 0) (Nat.le_refl 0) rfl
  have h := C6_consent_uniqueness 0 example_patient hreach
  exact ⟨h.1 5 "ai_intake" (by omega),
    h.2.1 11 "ai_intake" "care2" none 5 (by decide)⟩

end Baymax.Domain

namespace Baymax.Appointments

/-- The slot loop is the grid filtered to unbooked, strictly-future starts
and mapped to slot records. -/
theorem slots_loop_eq (pid date : Nat) (ty : String) (booked : List Nat)
    (now dur step : Nat) :
    ∀ n current endt, endt - current ≤ n →
      slots_loop pid date ty booked now dur step current endt =
        ((grid_starts step current endt).filter
            (fun s => decide (s ∉ booked ∧ now < s))).map
          (fun s =>
            { provider_id := pid, date := date, start_time := s, end_time := s + dur,
              duration_minutes := dur, available := true, appointment_type := ty }) := by
  intro n
  induction n with
  | zero =>
      intro current endt h0
      unfold slots_loop grid_starts
      rw [dif_neg (fun hc => by omega), dif_neg (fun hc => by omega)]
      simp
  | succ n ih =>
      intro current endt h
      unfold slots_loop grid_starts
      by_cases hc : current < endt ∧ 0 < step
      · rw [dif_pos hc, dif_pos hc]
        rw [ih (current + step) endt (by omega)]
        rw [List.filter_cons]
        by_cases hb : current ∉ booked ∧ now < current
        · rw [if_pos hb, if_pos (decide_eq_true hb), List.map_cons, List.singleton_append]
        · rw [if_neg hb, if_neg (by simp [decide_eq_false hb]), List.nil_append]
      · rw [dif_neg hc, dif_neg hc]
        simp

/-- Membership in the default grid (step 35): exactly the starts
`current + 35 k` strictly below the end bound. -/
theorem grid_starts_35_mem : ∀ n current endt, endt - current ≤ n →
    ∀ s, s ∈ grid_starts 35 current endt ↔ ∃ k, s = current + 35 * k ∧ s < endt := by
  intro n
  induction n with
  | zero =>
      intro current endt h0 s
      unfold grid_starts
      rw [dif_neg (fun hc => by omega)]
      simp only [List.not_mem_nil, false_iff]
      rintro ⟨k, rfl, hlt⟩
      omega
  | succ n ih =>
      intro current endt h s
      unfold grid_starts
      by_cases hc : current < endt ∧ 0 < 35
      · rw [dif_pos hc]
        rw [List.mem_cons]
        rw [ih (current + 35) endt (by omega) s]
        constructor
        · rintro (rfl | ⟨k, rfl, hlt⟩)
          · exact ⟨0, by omega, hc.1⟩
          · exact ⟨k + 1, by omega, hlt⟩
        · rintro ⟨k, rfl, hlt⟩
          cases k with
          | zero => left; omega
          | succ k2 => right; exact ⟨k2, by omega, hlt⟩
      · rw [dif_neg hc]
        simp only [List.not_mem_nil, false_iff]
        rintro ⟨k, rfl, hlt⟩
        exact hc ⟨by omega, by omega⟩

/-- Claim C7: with the default 30-minute slots and 5-minute buffer, the
endpoint returns exactly the 09:00-17:00 grid of 35-minute-spaced starts,
keeping a start iff it is not booked and strictly in the future, and every
slot carries end = start + 30, duration 30, available = true and the
requested type.  Times are minutes; `day_start` is midnight of the
requested day. -/
theorem C7_available_slots (pid date : Nat) (ty : String) (booked : List Nat)
    (now day_start : Nat) :
    get_available_slots pid date ty booked now day_start
        APPOINTMENT_SLOT_DURATION_MINUTES APPOINTMENT_BUFFER_MINUTES =
      ((grid_starts 35 (day_start + 540) (day_start + 1020)).filter
          (fun s => decide (s ∉ booked ∧ now < s))).map
        (fun s =>
          { provider_id := pid, date := date, start_time := s, end_time := s + 30,
            duration_minutes := 30, available := true, appointment_type := ty }) ∧
    (∀ s, s ∈ grid_starts 35 (day_start + 540) (day_start + 1020) ↔
      ∃ k, s = day_start + 540 + 35 * k ∧ s < day_start + 1020) := by
  constructor
  · have h := slots_loop_eq pid date ty booked now 30 35
      (day_start + 1020 - (day_start + 540)) (day_start + 540) (day_start + 1020)
      (Nat.le_refl _)
    simpa [get_available_slots, APPOINTMENT_SLOT_DURATION_MINUTES,
      APPOINTMENT_BUFFER_MINUTES] using h
  · intro s
    exact grid_starts_35_mem (day_start + 1020 - (day_start + 540)) _ _ (Nat.le_refl _) s

end Baymax.Appointments

namespace Baymax.IntakeVO

/-- The count of true flags is the sum of indicator terms. -/
theorem count_fields_eq (ic : IntakeCompleteness) :
    (fields_list ic).count true =
      (if ic.chief_complaint_collected = true then 1 else 0) +
      (if ic.hpi_collected = true then 1 else 0) +
      (if ic.pmh_collected = true then 1 else 0) +
      (if ic.medications_collected = true then 1 else 0) +
      (if ic.allergies_collected = true then 1 else 0) +
      (if ic.social_history_collected = true then 1 else 0) +
      (if ic.family_history_collected = true then 1 else 0) +
      (if ic.ros_collected = true then 1 else 0) := by
  obtain ⟨a, b, c, d, e, f, g, h⟩ := ic
  revert a b c d e f g h
  decide

/-- `score` as the indicator sum over eight. -/
theorem score_eq (ic : IntakeCompleteness) :
    score ic =
      (((if ic.chief_complaint_collected then 1 else 0) +
        (if ic.hpi_collected then 1 else 0) +
        (if ic.pmh_collected then 1 else 0) +
        (if ic.medications_collected then 1 else 0) +
        (if ic.allergies_collected then 1 else 0) +
        (if ic.social_history_collected then 1 else 0) +
        (if ic.family_history_collected then 1 else 0) +
        (if ic.ros_collected then 1 else 0) : ℚ)) / 8 := by
  have hlen : ((fields_list ic).length : ℚ) = 8 := by
    simp [fields_list]
  unfold score
  rw [count_fields_eq ic, hlen]
  push_cast [apply_ite (Nat.cast : Nat → ℚ)]
  norm_num

end Baymax.IntakeVO

namespace Baymax.IntakeVO

/-- `is_complete` depends on exactly the four required flags. -/
theorem is_complete_iff (ic : IntakeCompleteness) :
    is_complete ic = true ↔
      ic.chief_complaint_collected = true ∧ ic.hpi_collected = true ∧
      ic.medications_collected = true ∧ ic.allergies_collected = true := by
  obtain ⟨a, b, c, d, e, f, g, h⟩ := ic
  revert a b c d e f g h
  decide

/-- `missing_sections` is the filter of the labelled flags. -/
theorem missing_sections_eq (ic : IntakeCompleteness) :
    missing_sections ic =
      ((labelled_flags ic).filter (fun f => !f.1)).map (fun f => f.2) := by
  obtain ⟨a, b, c, d, e, f, g, h⟩ := ic
  revert a b c d e f g h
  decide

/-- Claim C8: for every assignment of the eight section flags, `score` is
the number of true flags over eight, `is_complete` holds exactly when
chief complaint, HPI, medications and allergies are all collected
(independent of the other four flags), and `missing_sections` lists the
labels of the false flags in the fixed enumeration order; the spec example
with exactly those four flags true scores 1/2, is complete, and misses the
other four sections in order. -/
theorem C8_intake_completeness (ic : IntakeCompleteness) :
    score ic =
      (((if ic.chief_complaint_collected then 1 else 0) +
        (if ic.hpi_collected then 1 else 0) +
        (if ic.pmh_collected then 1 else 0) +
        (if ic.medications_collected then 1 else 0) +
        (if ic.allergies_collected then 1 else 0) +
        (if ic.social_history_collected then 1 else 0) +
        (if ic.family_history_collected then 1 else 0) +
        (if ic.ros_collected then 1 else 0) : ℚ)) / 8 ∧
    (is_complete ic = true ↔
      ic.chief_complaint_collected = true ∧ ic.hpi_collected = true ∧
      ic.medications_collected = true ∧ ic.allergies_collected = true) ∧
    missing_sections ic =
      ((labelled_flags ic).filter (fun f => !f.1)).map (fun f => f.2) ∧
    (score { chief_complaint_collected := true, hpi_collected := true,
             medications_collected := true, allergies_collected := true } = 1 / 2 ∧
     is_complete { chief_complaint_collected := true, hpi_collected := true,
                   medications_collected := true, allergies_collected := true } = true ∧
     missing_sections { chief_complaint_collected := true, hpi_collected := true,
                        medications_collected := true, allergies_collected := true } =
       ["Past Medical History", "Social History", "Family History",
        "Review of Systems"]) := by
  refine ⟨score_eq ic, is_complete_iff ic, missing_sections_eq ic, ?_, rfl, rfl⟩
  rw [score_eq]
  norm_num

end Baymax.IntakeVO
